import Mathlib

/-!
Shallow embedding of `src/main.py` (Tung Tung Tung Sahur NFT bot).

Strings are modelled at the byte level (`List Nat`, each entry < 256),
matching the Python method `.encode()` (UTF-8).  The cryptographic primitives
(`hashlib.sha256`, `hmac.new`) are implemented concretely so that the
signature-validation pipeline is executable.
-/

/-- Word-size truncation to 32 bits, matching fixed-width SHA-256 arithmetic. -/
def w32 (n : Nat) : Nat := n % 4294967296

/-- Right rotation of a 32-bit word. -/
def rotr (x n : Nat) : Nat := w32 ((x >>> n) + (x <<< (32 - n)))

/-- UTF-8 encoding of a single code point. -/
def utf8Char (c : Nat) : List Nat :=
  if c < 128 then [c]
  else if c < 2048 then [192 + c / 64, 128 + c % 64]
  else if c < 65536 then [224 + c / 4096, 128 + (c / 64) % 64, 128 + c % 64]
  else [240 + c / 262144, 128 + (c / 4096) % 64, 128 + (c / 64) % 64, 128 + c % 64]

/-- UTF-8 encoding of a string, i.e. the Python method `str.encode()`. -/
def utf8 (s : String) : List Nat :=
  s.data.foldr (fun c acc => utf8Char c.toNat ++ acc) []

/-- SHA-256 round constants. -/
def shaK : List Nat :=
  [1116352408, 1899447441, 3049323471, 3921009573, 961987163, 1508970993,
   2453635748, 2870763221, 3624381080, 310598401, 607225278, 1426881987,
   1925078388, 2162078206, 2614888103, 3248222580, 3835390401, 4022224774,
   264347078, 604807628, 770255983, 1249150122, 1555081692, 1996064986,
   2554220882, 2821834349, 2952996808, 3210313671, 3336571891, 3584528711,
   113926993, 338241895, 666307205, 773529912, 1294757372, 1396182291,
   1695183700, 1986661051, 2177026350, 2456956037, 2730485921, 2820302411,
   3259730800, 3345764771, 3516065817, 3600352804, 4094571909, 275423344,
   430227734, 506948616, 659060556, 883997877, 958139571, 1322822218,
   1537002063, 1747873779, 1955562222, 2024104815, 2227730452, 2361852424,
   2428436474, 2756734187, 3204031479, 3329325298]

/-- SHA-256 initial hash state. -/
def shaH0 : List Nat :=
  [1779033703, 3144134277, 1013904242, 2773480762,
   1359893119, 2600822924, 528734635, 1541459225]

/-- Big-endian 8-byte encoding. -/
def be64 (n : Nat) : List Nat :=
  [(n >>> 56) % 256, (n >>> 48) % 256, (n >>> 40) % 256, (n >>> 32) % 256,
   (n >>> 24) % 256, (n >>> 16) % 256, (n >>> 8) % 256, n % 256]

/-- Big-endian 4-byte encoding of a 32-bit word. -/
def be32 (n : Nat) : List Nat :=
  [(n >>> 24) % 256, (n >>> 16) % 256, (n >>> 8) % 256, n % 256]

/-- SHA-256 message padding. -/
def shaPad (msg : List Nat) : List Nat :=
  let L := msg.length
  let k := (64 + 56 - (L + 1) % 64) % 64
  msg ++ 128 :: List.replicate k 0 ++ be64 (8 * L)

/-- Split a byte list into 64-byte blocks (fuel-driven). -/
def chunksAux : Nat → List Nat → List (List Nat)
  | 0, _ => []
  | _, [] => []
  | fuel + 1, l => l.take 64 :: chunksAux fuel (l.drop 64)

/-- Split a byte list into 64-byte blocks. -/
def chunks64 (l : List Nat) : List (List Nat) := chunksAux l.length l

/-- Combine 4 consecutive bytes into big-endian 32-bit words. -/
def toWords : List Nat → List Nat
  | a :: b :: c :: d :: rest => (a <<< 24 + b <<< 16 + c <<< 8 + d) :: toWords rest
  | _ => []

/-- SHA-256 sigma functions. -/
def ssig0 (x : Nat) : Nat := (rotr x 7) ^^^ (rotr x 18) ^^^ (x >>> 3)

/-- SHA-256 small sigma 1. -/
def ssig1 (x : Nat) : Nat := (rotr x 17) ^^^ (rotr x 19) ^^^ (x >>> 10)

/-- SHA-256 big sigma 0. -/
def bsig0 (x : Nat) : Nat := (rotr x 2) ^^^ (rotr x 13) ^^^ (rotr x 22)

/-- SHA-256 big sigma 1. -/
def bsig1 (x : Nat) : Nat := (rotr x 6) ^^^ (rotr x 11) ^^^ (rotr x 25)

/-- SHA-256 choice function. -/
def shaCh (x y z : Nat) : Nat := (x &&& y) ^^^ ((x ^^^ 4294967295) &&& z)

/-- SHA-256 majority function. -/
def shaMaj (x y z : Nat) : Nat := (x &&& y) ^^^ (x &&& z) ^^^ (y &&& z)

/-- Extend the 16-word block to the 64-word message schedule. -/
def extendSchedule : List Nat → Nat → List Nat
  | w, 0 => w
  | w, n + 1 =>
    let i := w.length
    let nw := w32 (ssig1 (w.getD (i - 2) 0) + w.getD (i - 7) 0 +
                   ssig0 (w.getD (i - 15) 0) + w.getD (i - 16) 0)
    extendSchedule (w ++ [nw]) n

/-- One SHA-256 compression round. -/
def shaRound (st : List Nat) (wk : Nat × Nat) : List Nat :=
  match st with
  | [a, b, c, d, e, f, g, h] =>
    let t1 := w32 (h + bsig1 e + shaCh e f g + wk.2 + wk.1)
    let t2 := w32 (bsig0 a + shaMaj a b c)
    [w32 (t1 + t2), a, b, c, w32 (d + t1), e, f, g]
  | st => st

/-- Process one 64-byte block into the running hash state. -/
def shaBlock (h : List Nat) (block : List Nat) : List Nat :=
  let w := extendSchedule (toWords block) 48
  let st := (w.zip shaK).foldl shaRound h
  (h.zip st).map (fun p => w32 (p.1 + p.2))

/-- SHA-256 of a byte list, as a 32-byte digest. -/
def sha256 (msg : List Nat) : List Nat :=
  let hh := (chunks64 (shaPad msg)).foldl shaBlock shaH0
  hh.foldr (fun x acc => be32 x ++ acc) []

/-- HMAC-SHA256 with the given key and message, as Python `hmac.new(key, msg, sha256).digest()`. -/
def hmacSha256 (key msg : List Nat) : List Nat :=
  let k0 := if key.length > 64 then sha256 key else key
  let k := k0 ++ List.replicate (64 - k0.length) 0
  let ipad := k.map (fun b => b ^^^ 54)
  let opad := k.map (fun b => b ^^^ 92)
  sha256 (opad ++ sha256 (ipad ++ msg))

/-- Lowercase hex digit as an ASCII byte. -/
def hexDigit (n : Nat) : Nat := if n < 10 then 48 + n else 87 + n

/-- Lowercase hex encoding of a byte list, as ASCII bytes (Python `.hexdigest().encode()`). -/
def hexBytes (bs : List Nat) : List Nat :=
  bs.foldr (fun b acc => hexDigit (b / 16) :: hexDigit (b % 16) :: acc) []

/-!
Model of `urllib.parse.parse_qsl` (default options: `keep_blank_values=False`,
`strict_parsing=False`, separator `&`) followed by `dict(...)`, at the byte
level.  Decoded keys/values are kept as UTF-8 byte lists; the Python string
ordering and equality coincide with byte-level ordering and equality on UTF-8.
-/

/-- Split a byte list on a separator byte, like Python `str.split(sep)`. -/
def splitOnAux (sep : Nat) : List Nat → List Nat → List (List Nat)
  | [], cur => [cur.reverse]
  | c :: rest, cur =>
    if c = sep then cur.reverse :: splitOnAux sep rest []
    else splitOnAux sep rest (c :: cur)

/-- Split a byte list on a separator byte. -/
def splitOn (sep : Nat) (l : List Nat) : List (List Nat) := splitOnAux sep l []

/-- Split a field at the first `=` (byte 61), like `field.split("=", 1)`. -/
def splitEqAux : List Nat → List Nat → Option (List Nat × List Nat)
  | [], _ => none
  | c :: rest, acc =>
    if c = 61 then some (acc.reverse, rest) else splitEqAux rest (c :: acc)

/-- Split a field at the first `=`; `none` when there is no `=`. -/
def splitEq (l : List Nat) : Option (List Nat × List Nat) := splitEqAux l []

/-- Check whether a byte is an ASCII hex digit. -/
def isHexDig (c : Nat) : Bool :=
  (48 ≤ c && c ≤ 57) || (97 ≤ c && c ≤ 102) || (65 ≤ c && c ≤ 70)

/-- Numeric value of an ASCII hex digit. -/
def hexVal (c : Nat) : Nat :=
  if c ≤ 57 then c - 48 else if c ≤ 70 then c - 55 else c - 87

/-- Model of `unquote_plus`: `+` becomes a space, `%XX` becomes the byte `0xXX`,
an invalid percent escape is kept literally. -/
def unquotePlus : List Nat → List Nat
  | [] => []
  | 43 :: rest => 32 :: unquotePlus rest
  | 37 :: a :: b :: rest =>
    if isHexDig a && isHexDig b then (16 * hexVal a + hexVal b) :: unquotePlus rest
    else 37 :: unquotePlus (a :: b :: rest)
  | c :: rest => c :: unquotePlus rest

/-- Model of `urllib.parse.parse_qsl` with default options: fields split on `&`,
fields without `=` or with an empty value are dropped, names and values are
percent-decoded with `+` as space. -/
def parseQsl (qs : List Nat) : List (List Nat × List Nat) :=
  (splitOn 38 qs).foldr
    (fun field acc =>
      if field.isEmpty then acc
      else
        match splitEq field with
        | none => acc
        | some (n, v) =>
          if v.isEmpty then acc else (unquotePlus n, unquotePlus v) :: acc)
    []

/-- Insert one pair into a Python-dict model (association list keeping first-insertion
order; a repeated key overwrites the stored value in place). -/
def pyDictInsert (d : List (List Nat × List Nat)) (kv : List Nat × List Nat) :
    List (List Nat × List Nat) :=
  if d.any (fun p => p.1 == kv.1) then
    d.map (fun p => if p.1 == kv.1 then (p.1, kv.2) else p)
  else d ++ [kv]

/-- Model of `dict(pairs)`. -/
def pyDict (ps : List (List Nat × List Nat)) : List (List Nat × List Nat) :=
  ps.foldl pyDictInsert []

/-- Dictionary lookup, like `d.get(k)`. -/
def dictLookup (k : List Nat) (d : List (List Nat × List Nat)) : Option (List Nat) :=
  (d.find? (fun p => p.1 == k)).map (fun p => p.2)

/-- Lexicographic comparison of byte lists; on UTF-8 bytes this coincides with
the Python string ordering used by `sorted`. -/
def lexLe : List Nat → List Nat → Bool
  | [], _ => true
  | _ :: _, [] => false
  | a :: as, b :: bs => if a < b then true else if b < a then false else lexLe as bs

/-- Insert into a lexicographically sorted list of keys. -/
def insertSorted (x : List Nat) : List (List Nat) → List (List Nat)
  | [] => [x]
  | y :: ys => if lexLe x y then x :: y :: ys else y :: insertSorted x ys

/-- Model of `sorted(keys)` for the (duplicate-free) key list of a dict. -/
def sortKeys (l : List (List Nat)) : List (List Nat) := l.foldr insertSorted []

/-- Join byte lists with a separator byte, like `sep.join(parts)`. -/
def joinByte (sep : Nat) : List (List Nat) → List Nat
  | [] => []
  | [x] => x
  | x :: xs => x ++ sep :: joinByte sep xs

/-- The data-check string of `validate_telegram_webapp_data`, at the byte level:
`"\n".join(f"(key)=(value)" for key in sorted(d.keys()))`. -/
def dataCheckBytes (d : List (List Nat × List Nat)) : List Nat :=
  joinByte 10 ((sortKeys (d.map (fun p => p.1))).map
    (fun k => k ++ 61 :: (dictLookup k d).getD []))

/-!
Model of `json.loads`, at the byte level.  Object keys and string values are
kept as UTF-8 byte lists; a JSON number without fraction or exponent becomes
an `Int`, any other numeric literal keeps its raw text.  Surrogate pairs in
`\u` escapes are not combined (irrelevant to the inputs considered here).
-/

/-- Python exception surrogate for the validation pipeline. -/
inductive PyErr where
  | jsonError
  | attrError
deriving DecidableEq

/-- Python-level JSON value. -/
inductive PyJson where
  | null
  | bool (b : Bool)
  | int (n : Int)
  | num (raw : List Nat)
  | str (s : List Nat)
  | arr (items : List PyJson)
  | obj (fields : List (List Nat × PyJson))

/-- Skip JSON whitespace bytes. -/
def skipWs : List Nat → List Nat
  | c :: rest =>
    if c = 32 || c = 9 || c = 10 || c = 13 then skipWs rest else c :: rest
  | [] => []

/-- Decimal digit test on a byte. -/
def isDig (c : Nat) : Bool := 48 ≤ c && c ≤ 57

/-- Take leading decimal digits. -/
def takeDigits : List Nat → (List Nat × List Nat)
  | c :: rest =>
    if isDig c then
      let p := takeDigits rest
      (c :: p.1, p.2)
    else ([], c :: rest)
  | [] => ([], [])

/-- Decimal value of a digit byte list. -/
def digitsVal (l : List Nat) : Nat := l.foldl (fun acc c => 10 * acc + (c - 48)) 0

/-- Parse the integer part of a JSON number after an optional sign: `0` or a
nonzero digit followed by digits. -/
def jIntPart : List Nat → Option (List Nat × List Nat)
  | 48 :: rest => some ([48], rest)
  | c :: rest =>
    if isDig c then
      let p := takeDigits rest
      some (c :: p.1, p.2)
    else none
  | [] => none

/-- Parse the optional fraction part; returns the consumed raw bytes. -/
def jFracPart : List Nat → Option (List Nat × List Nat)
  | 46 :: rest =>
    match takeDigits rest with
    | ([], _) => none
    | (ds, rest2) => some (46 :: ds, rest2)
  | _ => none

/-- Parse the optional exponent part; returns the consumed raw bytes. -/
def jExpPart : List Nat → Option (List Nat × List Nat)
  | c :: rest =>
    if c = 101 || c = 69 then
      match rest with
      | s :: rest2 =>
        if s = 43 || s = 45 then
          match takeDigits rest2 with
          | ([], _) => none
          | (ds, rest3) => some (c :: s :: ds, rest3)
        else
          match takeDigits rest with
          | ([], _) => none
          | (ds, rest3) => some (c :: ds, rest3)
      | [] => none
    else none
  | [] => none

/-- Parse a JSON number (an optional `-` already split off by the caller is
passed through `neg`); also accepts `Infinity` and `NaN` like Python `json`. -/
def jNumber (neg : Bool) (input : List Nat) : Except PyErr (PyJson × List Nat) :=
  match input with
  | 73 :: 110 :: 102 :: 105 :: 110 :: 105 :: 116 :: 121 :: rest =>
    .ok (.num (if neg then 45 :: [73] else [73]), rest)
  | _ =>
    match jIntPart input with
    | none => .error .jsonError
    | some (ip, rest1) =>
      let fr := jFracPart rest1
      let rest2 := (fr.map (fun p => p.2)).getD rest1
      let ex := jExpPart rest2
      let rest3 := (ex.map (fun p => p.2)).getD rest2
      if fr.isNone && ex.isNone then
        let v : Int := Int.ofNat (digitsVal ip)
        .ok (.int (if neg then -v else v), rest3)
      else
        let raw := (if neg then [45] else []) ++ ip ++
          ((fr.map (fun p => p.1)).getD []) ++ ((ex.map (fun p => p.1)).getD [])
        .ok (.num raw, rest3)

/-- Parse the body of a JSON string after the opening quote. -/
def jStringAux : Nat → List Nat → Except PyErr (List Nat × List Nat)
  | 0, _ => .error .jsonError
  | fuel + 1, input =>
    match input with
    | [] => .error .jsonError
    | 34 :: rest => .ok ([], rest)
    | 92 :: esc =>
      match esc with
      | 34 :: r =>
        match jStringAux fuel r with
        | .ok (s, r2) => .ok (34 :: s, r2)
        | .error e => .error e
      | 92 :: r =>
        match jStringAux fuel r with
        | .ok (s, r2) => .ok (92 :: s, r2)
        | .error e => .error e
      | 47 :: r =>
        match jStringAux fuel r with
        | .ok (s, r2) => .ok (47 :: s, r2)
        | .error e => .error e
      | 98 :: r =>
        match jStringAux fuel r with
        | .ok (s, r2) => .ok (8 :: s, r2)
        | .error e => .error e
      | 102 :: r =>
        match jStringAux fuel r with
        | .ok (s, r2) => .ok (12 :: s, r2)
        | .error e => .error e
      | 110 :: r =>
        match jStringAux fuel r with
        | .ok (s, r2) => .ok (10 :: s, r2)
        | .error e => .error e
      | 114 :: r =>
        match jStringAux fuel r with
        | .ok (s, r2) => .ok (13 :: s, r2)
        | .error e => .error e
      | 116 :: r =>
        match jStringAux fuel r with
        | .ok (s, r2) => .ok (9 :: s, r2)
        | .error e => .error e
      | 117 :: a :: b :: c :: d :: r =>
        if isHexDig a && isHexDig b && isHexDig c && isHexDig d then
          let cp := 4096 * hexVal a + 256 * hexVal b + 16 * hexVal c + hexVal d
          match jStringAux fuel r with
          | .ok (s, r2) => .ok (utf8Char cp ++ s, r2)
          | .error e => .error e
        else .error .jsonError
      | _ => .error .jsonError
    | c :: rest =>
      if c < 32 then .error .jsonError
      else
        match jStringAux fuel rest with
        | .ok (s, r2) => .ok (c :: s, r2)
        | .error e => .error e

mutual

/-- Parse one JSON value (leading whitespace allowed). -/
def jValue : Nat → List Nat → Except PyErr (PyJson × List Nat)
  | 0, _ => .error .jsonError
  | fuel + 1, input =>
    match skipWs input with
    | 110 :: 117 :: 108 :: 108 :: rest => .ok (.null, rest)
    | 116 :: 114 :: 117 :: 101 :: rest => .ok (.bool true, rest)
    | 102 :: 97 :: 108 :: 115 :: 101 :: rest => .ok (.bool false, rest)
    | 78 :: 97 :: 78 :: rest => .ok (.num [78], rest)
    | 34 :: rest =>
      match jStringAux (rest.length + 1) rest with
      | .ok (s, r2) => .ok (.str s, r2)
      | .error e => .error e
    | 91 :: rest =>
      match skipWs rest with
      | 93 :: r2 => .ok (.arr [], r2)
      | r2 => jArrItems fuel r2 []
    | 123 :: rest =>
      match skipWs rest with
      | 125 :: r2 => .ok (.obj [], r2)
      | r2 => jObjItems fuel r2 []
    | 45 :: rest => jNumber true rest
    | c :: rest =>
      if isDig c then jNumber false (c :: rest)
      else if c = 73 then jNumber false (c :: rest)
      else .error .jsonError
    | [] => .error .jsonError

/-- Parse array items after `[` (first item position). -/
def jArrItems (fuel : Nat) (input : List Nat) (acc : List PyJson) :
    Except PyErr (PyJson × List Nat) :=
  match fuel with
  | 0 => .error .jsonError
  | fuel + 1 =>
    match jValue fuel input with
    | .error e => .error e
    | .ok (v, rest) =>
      match skipWs rest with
      | 44 :: r2 => jArrItems fuel r2 (v :: acc)
      | 93 :: r2 => .ok (.arr (v :: acc).reverse, r2)
      | _ => .error .jsonError

/-- Parse object members after an opening brace (first member position). -/
def jObjItems (fuel : Nat) (input : List Nat) (acc : List (List Nat × PyJson)) :
    Except PyErr (PyJson × List Nat) :=
  match fuel with
  | 0 => .error .jsonError
  | fuel + 1 =>
    match skipWs input with
    | 34 :: rest =>
      match jStringAux (rest.length + 1) rest with
      | .error e => .error e
      | .ok (k, r2) =>
        match skipWs r2 with
        | 58 :: r3 =>
          match jValue fuel r3 with
          | .error e => .error e
          | .ok (v, r4) =>
            match skipWs r4 with
            | 44 :: r5 => jObjItems fuel r5 ((k, v) :: acc)
            | 125 :: r5 => .ok (.obj ((k, v) :: acc).reverse, r5)
            | _ => .error .jsonError
        | _ => .error .jsonError
    | _ => .error .jsonError

end

/-- Model of `json.loads` on UTF-8 bytes. -/
def jsonLoads (bs : List Nat) : Except PyErr PyJson :=
  match jValue (2 * bs.length + 16) bs with
  | .error e => .error e
  | .ok (v, rest) => if (skipWs rest).isEmpty then .ok v else .error .jsonError

/-- Model of `dict.get(key)` on a decoded JSON object: the last binding of a
repeated key wins (as in `json.loads`), and a JSON `null` value is Python
`None`, indistinguishable from an absent key in the result. -/
def pyJsonGet (fields : List (List Nat × PyJson)) (k : List Nat) : Option PyJson :=
  match (fields.filter (fun p => p.1 == k)).getLast? with
  | some (_, PyJson.null) => none
  | some (_, v) => some v
  | none => none

/-!
Embedding of `validate_telegram_webapp_data` (src/main.py lines 136-171).
`BOT_TOKEN` (a module-level configuration constant in the source) is passed
as an explicit parameter.  Exceptions inside the `try` body are modelled by
an `Except`-valued body; the `except` clause maps any error to `invalid`.
-/

/-- Result of `validate_telegram_webapp_data`, mirroring the three return shapes
of the source: bare invalid, invalid with an explicit `None` user id, and valid
carrying `user_data.get("id")` (where `none` models Python `None`). -/
inductive VRes where
  | invalid
  | invalidNoId
  | valid (userId : Option PyJson)

/-- The parsed dict of the init data: `dict(urllib.parse.parse_qsl(init_data))`. -/
def parsedInitData (init_data : String) : List (List Nat × List Nat) :=
  pyDict (parseQsl (utf8 init_data))

/-- The provided signature: `parsed_data.pop("hash", None)` before removal. -/
def providedHash (init_data : String) : Option (List Nat) :=
  dictLookup (utf8 "hash") (parsedInitData init_data)

/-- The parsed dict after `pop("hash", None)`. -/
def parsedMinusHash (init_data : String) : List (List Nat × List Nat) :=
  (parsedInitData init_data).filter (fun p => p.1 ≠ utf8 "hash")

/-- The secret key of the source: `hmac.new(b"WebAppData", BOT_TOKEN.encode(), sha256).digest()`
(HMAC keyed with the byte string `"WebAppData"`, over the bot token). -/
def secretKey (botToken : String) : List Nat :=
  hmacSha256 (utf8 "WebAppData") (utf8 botToken)

/-- The calculated hash of the source:
`hmac.new(secret_key, data_check_string.encode(), sha256).hexdigest()`. -/
def calculatedHash (botToken init_data : String) : List Nat :=
  hexBytes (hmacSha256 (secretKey botToken) (dataCheckBytes (parsedMinusHash init_data)))

/-- The `user` field of the parsed data after the hash was popped. -/
def userField (init_data : String) : Option (List Nat) :=
  dictLookup (utf8 "user") (parsedMinusHash init_data)

/-- Body of `validate_telegram_webapp_data` inside the `try`, with exceptions
as `Except.error`.  The only fallible steps are `json.loads` on the user field
and the subsequent `.get` on a non-dict value. -/
def validateBody (botToken init_data : String) : Except PyErr VRes :=
  match providedHash init_data with
  | none => .ok .invalid
  | some received =>
    if received.isEmpty then .ok .invalid
    else if calculatedHash botToken init_data ≠ received then .ok .invalid
    else
      match userField init_data with
      | none => .ok .invalidNoId
      | some u =>
        if u.isEmpty then .ok .invalidNoId
        else
          match jsonLoads u with
          | .error e => .error e
          | .ok (.obj fields) => .ok (.valid (pyJsonGet fields (utf8 "id")))
          | .ok _ => .error .attrError

/-- Embedding of `validate_telegram_webapp_data`: the `except` clause collapses
any exception of the body to a bare invalid result. -/
def validate_telegram_webapp_data (botToken init_data : String) : VRes :=
  match validateBody botToken init_data with
  | .ok r => r
  | .error _ => .invalid

/-- Modelled from the spec (section 4.1 step 3, as quoted by claim C1): the
secret key is an HMAC-SHA256 computed OVER the byte string `"WebAppData"`
USING the raw platform credential (bot token) as the HMAC KEY. -/
def specSecretKey (botToken : String) : List Nat :=
  hmacSha256 (utf8 botToken) (utf8 "WebAppData")

/-- Modelled from the spec (claim C1): the expected signature is HMAC-SHA256
over the canonical check string keyed with the secret key the spec derives,
hex-encoded. -/
def specExpectedSig (botToken init_data : String) : List Nat :=
  hexBytes (hmacSha256 (specSecretKey botToken) (dataCheckBytes (parsedMinusHash init_data)))

/-- The amended secret-key derivation: HMAC-SHA256 keyed with the byte string
`"WebAppData"`, computed over the raw platform credential (the roles of key and
message exchanged relative to the wording of the spec). -/
def amendedSecretKey (botToken : String) : List Nat :=
  hmacSha256 (utf8 "WebAppData") (utf8 botToken)

/-- The amended expected signature: canonical check string (URL-decoded pairs
minus the signature field, keys sorted ascending, `key=value` lines joined by
newlines) authenticated with the amended secret key, hex-encoded. -/
def amendedExpectedSig (botToken init_data : String) : List Nat :=
  hexBytes (hmacSha256 (amendedSecretKey botToken) (dataCheckBytes (parsedMinusHash init_data)))

/-!
Embedding of `check_nft_active` (src/main.py lines 174-200).  The HTTP call
and JSON decoding are modelled by the input: an `Except` whose error case
covers `ClientResponseError` (non-2xx via `raise_for_status`) and any other
exception (e.g. malformed JSON).
-/

/-- Value of the `result` field of a `getAddressState` response: a string or
some other JSON value. -/
inductive ResVal where
  | s (v : String)
  | other
deriving DecidableEq

/-- Decoded JSON body of a `getAddressState` response: `ok` is
`data.get("ok", False)` (an absent `ok` collapses to `false`), `result` is the
optional `result` field. -/
structure StateResp where
  ok : Bool
  result : Option ResVal
deriving DecidableEq

/-- Exception surrogate for the HTTP layer: a `ClientResponseError` with its
status, or any other exception. -/
inductive HttpFail where
  | status (code : Int)
  | exc
deriving DecidableEq

/-- Embedding of `check_nft_active`: any failure of the request or of JSON
decoding returns `false`; an `ok: false` envelope returns `false`; otherwise
the result is compared with the string `"active"`. -/
def check_nft_active (resp : Except HttpFail StateResp) : Bool :=
  match resp with
  | .error _ => false
  | .ok data =>
    if !data.ok then false
    else data.result == some (ResVal.s "active")

/-!
Embedding of `get_current_seqno` (src/main.py lines 203-242) over the
module-level `_seqno_cache`.  The event-loop clock value and the outcome of
the upstream `getMasterchainInfo` call are passed as parameters; the function
returns the seqno, the new cache, and whether the upstream call was issued.
Python floats for timestamps are modelled as rationals.
-/

/-- The `_seqno_cache` record. -/
structure SeqnoCache where
  value : Int
  timestamp : ℚ
deriving DecidableEq

/-- Initial value of `_seqno_cache` (src/main.py line 117). -/
def seqnoCacheInit : SeqnoCache := { value := 0, timestamp := 0 }

/-- The `last` block record of a `getMasterchainInfo` response; `seqno` is
optional because the source reads it with `last_block.get("seqno", 0)`. -/
structure LastBlock where
  seqno : Option Int
deriving DecidableEq

/-- The `result` record of a `getMasterchainInfo` response. -/
structure MCResult where
  last : Option LastBlock
deriving DecidableEq

/-- Decoded JSON body of a `getMasterchainInfo` response. -/
structure MCResp where
  ok : Bool
  result : Option MCResult
deriving DecidableEq

/-- Outcome of the upstream `getMasterchainInfo` call: non-2xx status
(`ClientResponseError`), any other exception (e.g. malformed JSON), or a
decoded body. -/
inductive FetchOutcome where
  | httpErr (status : Int)
  | exc
  | ok (resp : MCResp)
deriving DecidableEq

/-- The seqno extracted from a decoded body:
`data.get("result", dict()).get("last", dict()).get("seqno", 0)`. -/
def extractSeqno (resp : MCResp) : Int :=
  (((resp.result.getD { last := none }).last.getD { seqno := none }).seqno).getD 0

/-- Python `value or 0` on an integer: `0` is falsy, so this is the identity. -/
def pyOrZero (v : Int) : Int := if v ≠ 0 then v else 0

/-- Embedding of `get_current_seqno`.  Returns the seqno, the cache after the
call, and whether the upstream endpoint was called.  The `fetch` thunk stands
for the network interaction; it is forced only on the stale path. -/
def get_current_seqno (cache : SeqnoCache) (now : ℚ) (fetch : Unit → FetchOutcome) :
    Int × SeqnoCache × Bool :=
  if now - cache.timestamp < 60 then (cache.value, cache, false)
  else
    match fetch () with
    | .httpErr _ => (pyOrZero cache.value, cache, true)
    | .exc => (pyOrZero cache.value, cache, true)
    | .ok data =>
      if !data.ok then (pyOrZero cache.value, cache, true)
      else
        let seqno := extractSeqno data
        (seqno, { value := seqno, timestamp := now }, true)

/-!
Embedding of `get_nft_address` (src/main.py lines 245-333).  The POST to
`runGetMethod` is modelled by a `PostOutcome` input; the pytoniq cell/address
pipeline (`base64.b64decode`, `Cell.one_from_boc`, `begin_parse`,
`load_address`) and `check_nft_active` are passed as function parameters,
since they are library calls and a separately modelled coroutine.
-/

/-- Value part of a `runGetMethod` stack entry: a string (e.g. `"0"` or a hex
number), a JSON object (e.g. a cell record with a `bytes` field), or any other
shape. -/
inductive SVal where
  | s (v : String)
  | dict (fields : List (String × String))
  | other
deriving DecidableEq

/-- The `result` record of a `runGetMethod` response. -/
structure RunResult where
  exit_code : Option Int
  stack : Option (List (String × SVal))
deriving DecidableEq

/-- Decoded JSON body of a `runGetMethod` response; `result = none` also covers
a falsy (empty) result dict, which the source rejects with the same message. -/
structure RunResp where
  ok : Bool
  error : Option String
  result : Option RunResult

/-- Outcome of the POST to `runGetMethod`: `ClientResponseError` (caught by
the inner `except`), any other exception reaching the outer `except` (which
formats `str(e)`), or a decoded body. -/
inductive PostOutcome where
  | httpErr (status : Int)
  | exc (msg : String)
  | ok (data : RunResp)

/-- The decoded TON address object (`pytoniq_core.Address`): its 32-byte hash
part and its `to_str` rendering, abstracted over the three keyword flags
`is_user_friendly`, `is_bounceable`, `is_url_safe`. -/
structure AddrObj where
  hash_part : List Nat
  to_str : Bool → Bool → Bool → String

/-- The cell branch of `get_nft_address` (src/main.py lines 300-324):
`parseAddr` models the `try` body from `base64.b64decode` through
`load_address` (`.ok none` is `load_address` returning `None`, `.error m` is
any exception with `str(e) = m`), `checkActive` models `check_nft_active`. -/
def processCell (user_id : Int) (cell_boc_b64 : String)
    (parseAddr : String → Except String (Option AddrObj))
    (checkActive : String → Bool) : String :=
  match parseAddr cell_boc_b64 with
  | .error e => "⚠️ Error processing blockchain data: " ++ e
  | .ok nft_addr_obj =>
    match nft_addr_obj with
    | none => "ℹ️ NFT for user " ++ toString user_id ++ " is not minted (zero address returned)."
    | some a =>
      if a.hash_part = List.replicate 32 0 then
        "ℹ️ NFT for user " ++ toString user_id ++ " is not minted (zero address returned)."
      else
        let nft_address_str := a.to_str true true true
        if checkActive nft_address_str then
          "✅ Minted NFT Address: " ++ nft_address_str
        else
          "ℹ️ NFT for user " ++ toString user_id ++ " is not minted (address " ++
            nft_address_str ++ " is not active)."

/-- The stack-processing part of `get_nft_address` (src/main.py lines 289-329),
reached when the exit code is absent or in the set of accepted codes. -/
def processStack (user_id : Int) (stack : Option (List (String × SVal)))
    (parseAddr : String → Except String (Option AddrObj))
    (checkActive : String → Bool) : String :=
  match stack with
  | none => "ℹ️ NFT for user " ++ toString user_id ++ " is not minted (empty stack)."
  | some [] => "ℹ️ NFT for user " ++ toString user_id ++ " is not minted (empty stack)."
  | some ((item_type, item_value) :: _) =>
    let fallback :=
      if item_type = "null" ∨ (item_type = "num" ∧ item_value = SVal.s "0") then
        "ℹ️ NFT for user " ++ toString user_id ++ " is not minted (no address found)."
      else "Unexpected data format in blockchain response."
    if item_type = "cell" then
      match item_value with
      | .dict fields =>
        match (fields.find? (fun p => p.1 == "bytes")).map (fun p => p.2) with
        | some cell_boc_b64 => processCell user_id cell_boc_b64 parseAddr checkActive
        | none => fallback
      | _ => fallback
    else fallback

/-- Embedding of `get_nft_address`.  The seqno consultation only feeds the
request payload and does not influence the returned message, so it is not a
parameter here. -/
def get_nft_address (user_id : Int) (post : PostOutcome)
    (parseAddr : String → Except String (Option AddrObj))
    (checkActive : String → Bool) : String :=
  match post with
  | .httpErr st => "Error communicating with blockchain: Status " ++ toString st
  | .exc m => "An unexpected error occurred: " ++ m
  | .ok data =>
    if !data.ok then "Blockchain error: " ++ data.error.getD "Unknown error"
    else
      match data.result with
      | none => "Invalid response from blockchain"
      | some result =>
        match result.exit_code with
        | some ec =>
          if ec ∉ ([0, -1, -14] : List Int) then
            "ℹ️ NFT for user " ++ toString user_id ++ " is likely not minted (exit code: " ++
              toString ec ++ ")."
          else if ec = -14 then
            "ℹ️ NFT for user " ++ toString user_id ++
              " is not minted (index not found in collection)."
          else processStack user_id result.stack parseAddr checkActive
        | none => processStack user_id result.stack parseAddr checkActive

/-- Modelled from the spec (claim C3): the result mapping for a well-formed
`runGetMethod` result, written in the order of cases the claim uses — exit code
outside the accepted set, then the `-14` wording, then the empty-stack case,
then the first-entry shapes (`null` / `num "0"` before the `cell` case). -/
def specResolveOutcome (user_id : Int) (result : RunResult)
    (parseAddr : String → Except String (Option AddrObj))
    (checkActive : String → Bool) : String :=
  match result.exit_code with
  | some ec =>
    if ec = -14 then
      "ℹ️ NFT for user " ++ toString user_id ++
        " is not minted (index not found in collection)."
    else if ec ∉ ([0, -1] : List Int) then
      "ℹ️ NFT for user " ++ toString user_id ++ " is likely not minted (exit code: " ++
        toString ec ++ ")."
    else specStackOutcome user_id result.stack parseAddr checkActive
  | none => specStackOutcome user_id result.stack parseAddr checkActive
where
  /-- Stack dispatch in the order the claim uses. -/
  specStackOutcome (user_id : Int) (stack : Option (List (String × SVal)))
      (parseAddr : String → Except String (Option AddrObj))
      (checkActive : String → Bool) : String :=
    match stack with
    | none => "ℹ️ NFT for user " ++ toString user_id ++ " is not minted (empty stack)."
    | some [] => "ℹ️ NFT for user " ++ toString user_id ++ " is not minted (empty stack)."
    | some ((t, v) :: _) =>
      if t = "null" ∨ (t = "num" ∧ v = SVal.s "0") then
        "ℹ️ NFT for user " ++ toString user_id ++ " is not minted (no address found)."
      else
        match t == "cell", v with
        | true, .dict fields =>
          match (fields.find? (fun p => p.1 == "bytes")).map (fun p => p.2) with
          | some b => processCell user_id b parseAddr checkActive
          | none => "Unexpected data format in blockchain response."
        | _, _ => "Unexpected data format in blockchain response."

/-! Theorems. -/

/-- Helper: Python `value or 0` is the identity on integers. -/
theorem pyOrZero_id (v : Int) : pyOrZero v = v := by
  unfold pyOrZero
  split <;> omega

/-- C10: with the cache at its initial value (value 0, timestamp 0), every call
of `get_current_seqno` made while the event-loop clock reads less than 60
seconds returns 0, leaves the cache unchanged and issues no upstream request,
whatever the upstream would have answered. -/
theorem C10_theorem (now : ℚ) (fetch : Unit → FetchOutcome) (h : now < 60) :
    get_current_seqno seqnoCacheInit now fetch = (0, seqnoCacheInit, false) := by
  unfold get_current_seqno seqnoCacheInit
  rw [if_pos (by simpa using h)]

/-- C10 witness: the claim instantiated at clock value 30 with a failing upstream. -/
theorem C10_witness :
    get_current_seqno seqnoCacheInit 30 (fun _ => FetchOutcome.exc) = (0, seqnoCacheInit, false) :=
  C10_theorem 30 (fun _ => FetchOutcome.exc) (by norm_num)

/-- C6: a call of `get_current_seqno` with elapsed time under 60 seconds returns
the cached value with no upstream call; a stale call whose upstream fetch
succeeds returns the extracted seqno and stores it with the current timestamp;
consequently two calls within 60 seconds of each other, the upstream being
successful, issue at most one upstream call, and a call 60 or more seconds
after a successful refresh issues a new upstream call. -/
theorem C6_theorem (cache : SeqnoCache) (now now2 : ℚ)
    (fetch fetch2 : Unit → FetchOutcome) :
    (now - cache.timestamp < 60 →
      get_current_seqno cache now fetch = (cache.value, cache, false))
    ∧ (∀ resp, ¬(now - cache.timestamp < 60) → fetch () = .ok resp → resp.ok = true →
        get_current_seqno cache now fetch =
          (extractSeqno resp, { value := extractSeqno resp, timestamp := now }, true))
    ∧ ((∃ resp, fetch () = .ok resp ∧ resp.ok = true) → now ≤ now2 → now2 - now < 60 →
        ¬((get_current_seqno cache now fetch).2.2 = true ∧
          (get_current_seqno (get_current_seqno cache now fetch).2.1 now2 fetch2).2.2 = true))
    ∧ (∀ resp, ¬(now - cache.timestamp < 60) → fetch () = .ok resp → resp.ok = true →
        ¬(now2 - now < 60) →
        (get_current_seqno (get_current_seqno cache now fetch).2.1 now2 fetch2).2.2 = true) := by
  refine ⟨fun h => ?_, fun resp hst hf hok => ?_, fun hs hle hwin => ?_, fun resp hst hf hok h60 => ?_⟩
  · unfold get_current_seqno
    rw [if_pos h]
  · unfold get_current_seqno
    rw [if_neg hst, hf]
    simp [hok]
  · obtain ⟨resp, hf, hok⟩ := hs
    by_cases hst : now - cache.timestamp < 60
    · unfold get_current_seqno
      rw [if_pos hst]
      simp
    · have h1 : get_current_seqno cache now fetch =
          (extractSeqno resp, { value := extractSeqno resp, timestamp := now }, true) := by
        unfold get_current_seqno
        rw [if_neg hst, hf]
        simp [hok]
      rw [h1]
      intro hcontra
      have h2 := hcontra.2
      unfold get_current_seqno at h2
      rw [if_pos (by simpa using hwin)] at h2
      simp at h2
  · have h1 : get_current_seqno cache now fetch =
        (extractSeqno resp, { value := extractSeqno resp, timestamp := now }, true) := by
      unfold get_current_seqno
      rw [if_neg hst, hf]
      simp [hok]
    rw [h1]
    unfold get_current_seqno
    rw [if_neg (by simpa using h60)]
    rcases fetch2 () with st | _ | data
    · rfl
    · rfl
    · simp only
      split <;> rfl

/-- C6 witness: the four parts of the claim exercised concretely: a fresh-cache
hit at time 10, a successful stale refresh at time 60 storing seqno 42, the
at-most-one-call property for calls at times 60 and 100, and a forced new call
at time 120. -/
theorem C6_witness :
    (get_current_seqno { value := 7, timestamp := 0 } 10 (fun _ => FetchOutcome.exc) =
      (7, { value := 7, timestamp := 0 }, false))
    ∧ (get_current_seqno { value := 7, timestamp := 0 } 60
        (fun _ => FetchOutcome.ok { ok := true, result := some { last := some { seqno := some 42 } } }) =
        (42, { value := 42, timestamp := 60 }, true))
    ∧ ¬((get_current_seqno { value := 7, timestamp := 0 } 60
          (fun _ => FetchOutcome.ok { ok := true, result := some { last := some { seqno := some 42 } } })).2.2 = true ∧
        (get_current_seqno (get_current_seqno { value := 7, timestamp := 0 } 60
          (fun _ => FetchOutcome.ok { ok := true, result := some { last := some { seqno := some 42 } } })).2.1
          100 (fun _ => FetchOutcome.exc)).2.2 = true)
    ∧ (get_current_seqno (get_current_seqno { value := 7, timestamp := 0 } 60
        (fun _ => FetchOutcome.ok { ok := true, result := some { last := some { seqno := some 42 } } })).2.1
        120 (fun _ => FetchOutcome.exc)).2.2 = true := by
  refine ⟨?_, ?_, ?_, ?_⟩
  · exact (C6_theorem { value := 7, timestamp := 0 } 10 10
      (fun _ => FetchOutcome.exc) (fun _ => FetchOutcome.exc)).1 (by norm_num)
  · exact (C6_theorem { value := 7, timestamp := 0 } 60 60
      (fun _ => FetchOutcome.ok { ok := true, result := some { last := some { seqno := some 42 } } })
      (fun _ => FetchOutcome.exc)).2.1
      { ok := true, result := some { last := some { seqno := some 42 } } }
      (by norm_num) rfl rfl
  · exact (C6_theorem { value := 7, timestamp := 0 } 60 100
      (fun _ => FetchOutcome.ok { ok := true, result := some { last := some { seqno := some 42 } } })
      (fun _ => FetchOutcome.exc)).2.2.1
      ⟨{ ok := true, result := some { last := some { seqno := some 42 } } }, rfl, rfl⟩
      (by norm_num) (by norm_num)
  · exact (C6_theorem { value := 7, timestamp := 0 } 60 120
      (fun _ => FetchOutcome.ok { ok := true, result := some { last := some { seqno := some 42 } } })
      (fun _ => FetchOutcome.exc)).2.2.2
      { ok := true, result := some { last := some { seqno := some 42 } } }
      (by norm_num) rfl rfl (by norm_num)

/-- C7 counterexample: a 2xx `ok: true` response whose nested result lacks the
`last`/`seqno` fields ("missing fields") does NOT return the previously cached
value unchanged: with cache value 5, `get_current_seqno` returns 0 and
overwrites both the cached value and the timestamp. -/
theorem C7_counterexample :
    get_current_seqno { value := 5, timestamp := 0 } 60
        (fun _ => FetchOutcome.ok { ok := true, result := some { last := none } }) =
      (0, { value := 0, timestamp := 60 }, true)
    ∧ (0 : Int) ≠ 5
    ∧ ({ value := 0, timestamp := 60 } : SeqnoCache) ≠ { value := 5, timestamp := 0 } := by
  refine ⟨?_, by decide, by decide⟩
  unfold get_current_seqno
  rw [if_neg (by norm_num)]
  rfl

/-- C7 (amended): on a non-2xx status, a request/JSON exception, or an
`ok: false` envelope, a stale `get_current_seqno` call returns the previously
cached value and leaves the cache (value and timestamp) unmodified, so that a
subsequent still-stale call issues a new upstream request; a 2xx `ok: true`
response with missing nested fields instead stores and returns 0. -/
theorem C7_theorem (cache : SeqnoCache) (now now2 : ℚ)
    (fetch fetch2 : Unit → FetchOutcome)
    (hstale : ¬(now - cache.timestamp < 60))
    (hfail : (∃ st, fetch () = .httpErr st) ∨ fetch () = .exc ∨
             (∃ r, fetch () = .ok r ∧ r.ok = false)) :
    get_current_seqno cache now fetch = (cache.value, cache, true)
    ∧ (¬(now2 - cache.timestamp < 60) →
        (get_current_seqno cache now2 fetch2).2.2 = true) := by
  constructor
  · unfold get_current_seqno
    rw [if_neg hstale]
    rcases hfail with ⟨st, hf⟩ | hf | ⟨r, hf, hok⟩ <;> rw [hf]
    · rw [pyOrZero_id]
    · rw [pyOrZero_id]
    · simp [hok, pyOrZero_id]
  · intro hstale2
    unfold get_current_seqno
    rw [if_neg hstale2]
    rcases fetch2 () with st | _ | data
    · rfl
    · rfl
    · simp only
      split <;> rfl

/-- C7 witness: with cache value 5 and timestamp 0, a failed upstream call
(status 500) at time 60 returns 5 and leaves the cache unchanged, and a second
call at time 61 issues a new upstream request. -/
theorem C7_witness :
    get_current_seqno { value := 5, timestamp := 0 } 60 (fun _ => FetchOutcome.httpErr 500) =
      (5, { value := 5, timestamp := 0 }, true)
    ∧ (get_current_seqno { value := 5, timestamp := 0 } 61 (fun _ => FetchOutcome.httpErr 500)).2.2 = true := by
  have h := C7_theorem { value := 5, timestamp := 0 } 60 61
    (fun _ => FetchOutcome.httpErr 500) (fun _ => FetchOutcome.httpErr 500)
    (by norm_num) (Or.inl ⟨500, rfl⟩)
  exact ⟨h.1, h.2 (by norm_num)⟩

/-- C8 counterexample: the cached value is NOT monotonically non-decreasing
across successful refreshes: a successful refresh at time 60 stores seqno 5,
and a later successful refresh at time 120 stores seqno 3 < 5. -/
theorem C8_counterexample :
    ((get_current_seqno { value := 0, timestamp := 0 } 60
        (fun _ => FetchOutcome.ok { ok := true, result := some { last := some { seqno := some 5 } } })).2.1).value = 5
    ∧ ((get_current_seqno
          (get_current_seqno { value := 0, timestamp := 0 } 60
            (fun _ => FetchOutcome.ok { ok := true, result := some { last := some { seqno := some 5 } } })).2.1
          120
          (fun _ => FetchOutcome.ok { ok := true, result := some { last := some { seqno := some 3 } } })).2.1).value = 3
    ∧ (3 : Int) < 5 := by
  refine ⟨?_, ?_, by decide⟩
  · unfold get_current_seqno
    norm_num [extractSeqno]
  · unfold get_current_seqno
    norm_num [extractSeqno]

/-- C8 (amended): a successful refresh stores exactly the seqno extracted from
the upstream response (the code does not enforce monotonicity), so the cached
value is non-decreasing across a call precisely under the assumption that any
successfully fetched seqno is at least the currently cached value. -/
theorem C8_theorem (cache : SeqnoCache) (now : ℚ) (fetch : Unit → FetchOutcome) :
    (∀ r, ¬(now - cache.timestamp < 60) → fetch () = .ok r → r.ok = true →
      ((get_current_seqno cache now fetch).2.1).value = extractSeqno r)
    ∧ ((∀ r, fetch () = .ok r → r.ok = true → cache.value ≤ extractSeqno r) →
      cache.value ≤ ((get_current_seqno cache now fetch).2.1).value) := by
  constructor
  · intro r hstale hf hok
    unfold get_current_seqno
    rw [if_neg hstale, hf]
    simp [hok]
  · intro hmono
    unfold get_current_seqno
    split
    · exact le_refl _
    · rcases hf : fetch () with st | _ | data
      · simp
      · simp
      · rcases hok : data.ok with _ | _
        · simp [hok]
        · simpa [hok] using hmono data hf hok

/-- C8 witness: a stale successful refresh fetching seqno 9 over cached value 4
stores exactly 9, and 9 being at least 4 the cached value does not decrease. -/
theorem C8_witness :
    ((get_current_seqno { value := 4, timestamp := 0 } 60
        (fun _ => FetchOutcome.ok { ok := true, result := some { last := some { seqno := some 9 } } })).2.1).value =
      extractSeqno { ok := true, result := some { last := some { seqno := some 9 } } }
    ∧ (4 : Int) ≤ ((get_current_seqno { value := 4, timestamp := 0 } 60
        (fun _ => FetchOutcome.ok { ok := true, result := some { last := some { seqno := some 9 } } })).2.1).value := by
  have h := C8_theorem { value := 4, timestamp := 0 } 60
    (fun _ => FetchOutcome.ok { ok := true, result := some { last := some { seqno := some 9 } } })
  refine ⟨h.1 _ (by norm_num) rfl rfl, h.2 ?_⟩
  intro r hf hok
  cases hf
  decide

/-- C5: `check_nft_active` returns true exactly when the request succeeded with
an `ok: true` envelope whose `result` is the string `"active"`; every failure
(non-2xx status, any exception such as malformed JSON, or `ok: false`) yields
false, and the function is total — no exception escapes to the caller. -/
theorem C5_theorem (resp : Except HttpFail StateResp) :
    check_nft_active resp = true ↔
      ∃ data, resp = .ok data ∧ data.ok = true ∧ data.result = some (ResVal.s "active") := by
  constructor
  · intro h
    rcases resp with f | data
    · simp [check_nft_active] at h
    · unfold check_nft_active at h
      refine ⟨data, rfl, ?_, ?_⟩
      · rcases hok : data.ok with _ | _
        · simp [hok] at h
        · rfl
      · rcases hok : data.ok with _ | _
        · simp [hok] at h
        · simp [hok] at h
          simpa using h
  · rintro ⟨data, rfl, hok, hres⟩
    simp [check_nft_active, hok, hres]

/-- C5 witness: the characterization applied at a successful `"active"`
response and, in the failing direction, at a non-2xx outcome. -/
theorem C5_witness :
    check_nft_active (.ok { ok := true, result := some (ResVal.s "active") }) = true
    ∧ check_nft_active (.error (HttpFail.status 500)) = false := by
  constructor
  · exact (C5_theorem (.ok { ok := true, result := some (ResVal.s "active") })).2
      ⟨{ ok := true, result := some (ResVal.s "active") }, rfl, rfl, rfl⟩
  · rcases h : check_nft_active (.error (HttpFail.status 500)) with _ | _
    · rfl
    · exact absurd ((C5_theorem (.error (HttpFail.status 500))).1 h) (by rintro ⟨d, hd, -⟩; cases hd)

/-- Helper: the stack dispatch of the source (cell branch tested first) agrees with
the ordering of cases in the claim (null / num-zero tested first); the cases are
mutually exclusive because the type tags differ. -/
theorem processStack_eq_spec (user_id : Int) (stack : Option (List (String × SVal)))
    (parseAddr : String → Except String (Option AddrObj))
    (checkActive : String → Bool) :
    processStack user_id stack parseAddr checkActive =
      specResolveOutcome.specStackOutcome user_id stack parseAddr checkActive := by
  rcases stack with _ | ⟨_ | ⟨⟨t, v⟩, rest⟩⟩
  · rfl
  · rfl
  · unfold processStack specResolveOutcome.specStackOutcome
    by_cases hc : t = "cell"
    · subst hc
      have hno : ¬("cell" = "null" ∨ ("cell" = "num" ∧ v = SVal.s "0")) := by
        rintro (h | ⟨h, -⟩) <;> simp at h
      rcases v with s | fields | _
      · simp [hno]
      · rcases hb : (fields.find? (fun p => p.1 == "bytes")).map (fun p => p.2) with _ | b <;>
          simp [hno, hb]
      · simp [hno]
    · by_cases hn : t = "null" ∨ (t = "num" ∧ v = SVal.s "0")
      · simp [hc, hn]
      · have hcb : (t == "cell") = false := by simpa using hc
        rcases v with s | fields | _ <;> simp [hc, hn, hcb]

/-- C3: for every well-formed `runGetMethod` response (`ok: true` with a
result record), `get_nft_address` maps the result exactly as the claim
specifies: an exit code outside the accepted set gives the generic
likely-not-minted message, `-14` gives the index-not-found wording, an empty
or missing stack gives the empty-stack message, a first entry of type `null`
or `num` with value `"0"` gives the no-address message, a first entry of type
`cell` with a `bytes` field is handed to the cell decoder, and any other
first-entry shape gives the unexpected-format message. -/
theorem C3_theorem (user_id : Int) (err : Option String) (result : RunResult)
    (parseAddr : String → Except String (Option AddrObj))
    (checkActive : String → Bool) :
    get_nft_address user_id (.ok { ok := true, error := err, result := some result })
        parseAddr checkActive =
      specResolveOutcome user_id result parseAddr checkActive := by
  unfold get_nft_address specResolveOutcome
  simp only [Bool.not_true]
  rcases result with ⟨ec, stack⟩
  rcases ec with _ | c
  · exact processStack_eq_spec user_id stack parseAddr checkActive
  · simp only
    by_cases h14 : c = -14
    · subst h14
      norm_num
    · by_cases h0 : c = 0
      · subst h0
        norm_num
        exact processStack_eq_spec user_id stack parseAddr checkActive
      · by_cases h1 : c = -1
        · subst h1
          norm_num
          exact processStack_eq_spec user_id stack parseAddr checkActive
        · have hout : c ∉ ([0, -1, -14] : List Int) := by
            simp only [List.mem_cons, List.not_mem_nil, or_false]
            tauto
          have hout2 : c ∉ ([0, -1] : List Int) := by
            simp only [List.mem_cons, List.not_mem_nil, or_false]
            tauto
          simp [hout, hout2, h14]

/-- C4: the cell decoder branch behaves as specified: a decoded address whose
32-byte hash part is all zeros (or an absent address) yields the zero-address
not-minted status rather than a decode error; any structural parsing error is
converted to the generic error-processing message built from the exception
text; and a successfully decoded non-zero address is rendered with
`to_str(is_user_friendly=True, is_bounceable=True, is_url_safe=True)` and,
when the activity check reports active, the final message is
`"✅ Minted NFT Address: <rendered-address>"`. -/
theorem C4_theorem (user_id : Int) (cell_boc_b64 : String)
    (parseAddr : String → Except String (Option AddrObj))
    (checkActive : String → Bool) :
    (∀ a, parseAddr cell_boc_b64 = .ok (some a) → a.hash_part = List.replicate 32 0 →
      processCell user_id cell_boc_b64 parseAddr checkActive =
        "ℹ️ NFT for user " ++ toString user_id ++ " is not minted (zero address returned).")
    ∧ (∀ e, parseAddr cell_boc_b64 = .error e →
      processCell user_id cell_boc_b64 parseAddr checkActive =
        "⚠️ Error processing blockchain data: " ++ e)
    ∧ (∀ a, parseAddr cell_boc_b64 = .ok (some a) → a.hash_part ≠ List.replicate 32 0 →
      checkActive (a.to_str true true true) = true →
      processCell user_id cell_boc_b64 parseAddr checkActive =
        "✅ Minted NFT Address: " ++ a.to_str true true true) := by
  refine ⟨fun a hp hz => ?_, fun e hp => ?_, fun a hp hz hact => ?_⟩
  · unfold processCell
    rw [hp]
    simp [hz]
  · unfold processCell
    rw [hp]
  · unfold processCell
    rw [hp]
    simp only [if_neg hz, hact, if_true]

/-- C4 witness: the three branches exercised concretely: a zero-hash address,
a decode exception with text `"Cell underflow"`, and a non-zero address
rendered as `"EQtestaddr"` that the activity check accepts. -/
theorem C4_witness :
    processCell 12345 "b64a"
        (fun _ => .ok (some { hash_part := List.replicate 32 0, to_str := fun _ _ _ => "EQzero" }))
        (fun _ => true) =
      "ℹ️ NFT for user " ++ toString (12345 : Int) ++ " is not minted (zero address returned)."
    ∧ processCell 12345 "b64b" (fun _ => .error "Cell underflow") (fun _ => true) =
      "⚠️ Error processing blockchain data: " ++ "Cell underflow"
    ∧ processCell 12345 "b64c"
        (fun _ => .ok (some { hash_part := 171 :: List.replicate 31 1, to_str := fun _ _ _ => "EQtestaddr" }))
        (fun _ => true) =
      "✅ Minted NFT Address: " ++ "EQtestaddr" := by
  refine ⟨?_, ?_, ?_⟩
  · exact (C4_theorem 12345 "b64a"
      (fun _ => .ok (some { hash_part := List.replicate 32 0, to_str := fun _ _ _ => "EQzero" }))
      (fun _ => true)).1 _ rfl rfl
  · exact (C4_theorem 12345 "b64b" (fun _ => .error "Cell underflow") (fun _ => true)).2.1 _ rfl
  · exact (C4_theorem 12345 "b64c"
      (fun _ => .ok (some { hash_part := 171 :: List.replicate 31 1, to_str := fun _ _ _ => "EQtestaddr" }))
      (fun _ => true)).2.2 _ rfl (by decide) rfl

set_option maxRecDepth 40000

/-- C1 counterexample: the Verifier does not compute the expected signature as
the spec words it.  With bot token `"secret_token"`, the payload carrying the
JSON user record with id 7 and the hash actually computed by the source is
accepted as Valid, yet its provided hash differs from the expected signature
derived per the spec (HMAC-SHA256 over `"WebAppData"` keyed with the token):
the source keys the inner HMAC with `"WebAppData"` and hashes the token. -/
theorem C1_counterexample :
    validate_telegram_webapp_data "secret_token"
        "user=%7B%22id%22%3A7%7D&hash=63bf4724c053d81a4bd837bcfc7da8a7a2213fbb81bc95d5005d798fead637f3" =
      VRes.valid (some (PyJson.int 7))
    ∧ providedHash
        "user=%7B%22id%22%3A7%7D&hash=63bf4724c053d81a4bd837bcfc7da8a7a2213fbb81bc95d5005d798fead637f3" ≠
      some (specExpectedSig "secret_token"
        "user=%7B%22id%22%3A7%7D&hash=63bf4724c053d81a4bd837bcfc7da8a7a2213fbb81bc95d5005d798fead637f3") :=
  ⟨rfl, by decide⟩

/-- C1 (amended): the Verifier returns Valid only when the provided signature
equals the expected signature computed from the canonical check string
(URL-decoded pairs minus the signature field, keys sorted ascending,
`key=value` lines joined by newlines) with the secret key derived as
HMAC-SHA256 KEYED WITH the byte string `"WebAppData"` OVER the raw platform
credential — i.e. with the key/message roles of the wording in the spec swapped —
and that amended expected signature is exactly the calculated hash of the source. -/
theorem C1_theorem (botToken init_data : String) (uid : Option PyJson)
    (h : validate_telegram_webapp_data botToken init_data = VRes.valid uid) :
    providedHash init_data = some (amendedExpectedSig botToken init_data)
    ∧ amendedExpectedSig botToken init_data = calculatedHash botToken init_data := by
  refine ⟨?_, rfl⟩
  have hb : ∃ u2, validateBody botToken init_data = .ok (.valid u2) := by
    unfold validate_telegram_webapp_data at h
    split at h
    · next r heq =>
      rw [h] at heq
      exact ⟨uid, heq⟩
    · next e heq =>
      simp at h
  obtain ⟨u2, hb⟩ := hb
  unfold validateBody at hb
  split at hb
  · simp at hb
  · next received hph =>
    split at hb
    · simp at hb
    · split at hb
      · simp at hb
      · next hcal =>
        rw [not_ne_iff] at hcal
        rw [hph,
          show amendedExpectedSig botToken init_data = calculatedHash botToken init_data from rfl,
          hcal]

/-- C1 witness: the amended characterization applied to the concrete accepted
payload of token `"secret_token"` with user id 7. -/
theorem C1_witness :
    providedHash
        "user=%7B%22id%22%3A7%7D&hash=63bf4724c053d81a4bd837bcfc7da8a7a2213fbb81bc95d5005d798fead637f3" =
      some (amendedExpectedSig "secret_token"
        "user=%7B%22id%22%3A7%7D&hash=63bf4724c053d81a4bd837bcfc7da8a7a2213fbb81bc95d5005d798fead637f3")
    ∧ amendedExpectedSig "secret_token"
        "user=%7B%22id%22%3A7%7D&hash=63bf4724c053d81a4bd837bcfc7da8a7a2213fbb81bc95d5005d798fead637f3" =
      calculatedHash "secret_token"
        "user=%7B%22id%22%3A7%7D&hash=63bf4724c053d81a4bd837bcfc7da8a7a2213fbb81bc95d5005d798fead637f3" :=
  C1_theorem "secret_token"
    "user=%7B%22id%22%3A7%7D&hash=63bf4724c053d81a4bd837bcfc7da8a7a2213fbb81bc95d5005d798fead637f3"
    (some (PyJson.int 7)) rfl

/-- C2 counterexample: after signature confirmation, a payload whose decoded
JSON user object lacks the numeric identifier field does NOT make the Verifier
return Invalid: with token `"secret_token"` and a correctly signed payload
whose user record is a JSON object with only the key `"a"`, the result is
Valid with a null identifier. -/
theorem C2_counterexample :
    validate_telegram_webapp_data "secret_token"
        "user=%7B%22a%22%3A1%7D&hash=f085078b76a38e2f6f50d3bc72eea6c1b684125ef0a4a0ab2e315153832c3ec8" =
      VRes.valid none
    ∧ VRes.valid none ≠ VRes.invalid
    ∧ VRes.valid none ≠ VRes.invalidNoId :=
  ⟨rfl, fun h => VRes.noConfusion h, fun h => VRes.noConfusion h⟩

/-- C2 (amended): when the provided signature equals the calculated one and
the user field decodes to a JSON object, verify returns Valid carrying
`user_data.get("id")` — the embedded identifier when present, and a null
identifier (still Valid) when the identifier field is missing or null; a
provided signature differing from the calculated one in any character yields
Invalid; and a signature-confirmed payload with no user field at all yields
Invalid with an explicit null identifier. -/
theorem C2_theorem (botToken init_data : String) :
    (∀ received u fields,
      providedHash init_data = some received → received.isEmpty = false →
      calculatedHash botToken init_data = received →
      userField init_data = some u → u.isEmpty = false →
      jsonLoads u = .ok (.obj fields) →
      validate_telegram_webapp_data botToken init_data =
        VRes.valid (pyJsonGet fields (utf8 "id")))
    ∧ (∀ received,
      providedHash init_data = some received →
      calculatedHash botToken init_data ≠ received →
      validate_telegram_webapp_data botToken init_data = VRes.invalid)
    ∧ (∀ received,
      userField init_data = none →
      providedHash init_data = some received → received.isEmpty = false →
      calculatedHash botToken init_data = received →
      validate_telegram_webapp_data botToken init_data = VRes.invalidNoId) := by
  refine ⟨fun received u fields hph hemp hcal hu huemp hj => ?_,
    fun received hph hcal => ?_, fun received hu hph hemp hcal => ?_⟩
  · unfold validate_telegram_webapp_data validateBody
    rw [hph, hcal]
    simp [hemp, hu, huemp, hj]
  · unfold validate_telegram_webapp_data validateBody
    rw [hph]
    rcases hemp : received.isEmpty with _ | _
    · simp [hemp, hcal]
    · simp [hemp]
  · unfold validate_telegram_webapp_data validateBody
    rw [hph, hcal]
    simp [hemp, hu]

/-- C2 witness: the amended characterization exercised on three concrete
signed payloads for token `"secret_token"`: a user record with id 7 yields
Valid 7, a payload whose provided hash differs from the calculated one yields
Invalid, and a signed payload with no user field yields Invalid with a null
identifier. -/
theorem C2_witness :
    validate_telegram_webapp_data "secret_token"
        "user=%7B%22id%22%3A7%7D&hash=63bf4724c053d81a4bd837bcfc7da8a7a2213fbb81bc95d5005d798fead637f3" =
      VRes.valid (some (PyJson.int 7))
    ∧ validate_telegram_webapp_data "secret_token"
        "user=1&hash=2c5ba1cb7ac2868294e6c381e74b9bb4bcc79ac1d9322404048532b5083fcf09" =
      VRes.invalid
    ∧ validate_telegram_webapp_data "secret_token"
        "a=1&hash=dd217c43a9a15f01cfb466813ddcd9aceebb857f95249c09a8f52e010ded1a90" =
      VRes.invalidNoId := by
  refine ⟨?_, ?_, ?_⟩
  · exact ( C2_theorem "secret_token"
      "user=%7B%22id%22%3A7%7D&hash=63bf4724c053d81a4bd837bcfc7da8a7a2213fbb81bc95d5005d798fead637f3").1
      (utf8 "63bf4724c053d81a4bd837bcfc7da8a7a2213fbb81bc95d5005d798fead637f3")
      (utf8 "\x7b\x22id\x22:7\x7d") [(utf8 "id", PyJson.int 7)]
      rfl rfl rfl rfl rfl rfl
  · exact ( C2_theorem "secret_token"
      "user=1&hash=2c5ba1cb7ac2868294e6c381e74b9bb4bcc79ac1d9322404048532b5083fcf09").2.1
      (utf8 "2c5ba1cb7ac2868294e6c381e74b9bb4bcc79ac1d9322404048532b5083fcf09")
      rfl (by decide)
  · exact ( C2_theorem "secret_token"
      "a=1&hash=dd217c43a9a15f01cfb466813ddcd9aceebb857f95249c09a8f52e010ded1a90").2.2
      (utf8 "dd217c43a9a15f01cfb466813ddcd9aceebb857f95249c09a8f52e010ded1a90")
      rfl rfl rfl rfl

/-- C9: the Verifier never propagates an exception: a payload whose signature
field is absent from the parsed data returns Invalid, and any exception raised
inside the body (JSON decoding of the user field, attribute access on a
non-object) collapses to Invalid rather than a fault; the embedding is a total
pure function. -/
theorem C9_theorem (botToken init_data : String) :
    (providedHash init_data = none →
      validate_telegram_webapp_data botToken init_data = VRes.invalid)
    ∧ (∀ e, validateBody botToken init_data = .error e →
      validate_telegram_webapp_data botToken init_data = VRes.invalid) := by
  constructor
  · intro h
    unfold validate_telegram_webapp_data validateBody
    rw [h]
  · intro e h
    unfold validate_telegram_webapp_data
    rw [h]

/-- C9 witness: a payload with no hash field returns Invalid, and a correctly
signed payload whose user field is malformed JSON makes the body raise a JSON
decode error which the Verifier collapses to Invalid. -/
theorem C9_witness :
    validate_telegram_webapp_data "secret_token" "user=1" = VRes.invalid
    ∧ validateBody "secret_token"
        "user=%7Bbad&hash=bc6ab3f46d8162822bad99ba59aff9e2f6319a9866482c933d2b11290c76ae43" =
      .error PyErr.jsonError
    ∧ validate_telegram_webapp_data "secret_token"
        "user=%7Bbad&hash=bc6ab3f46d8162822bad99ba59aff9e2f6319a9866482c933d2b11290c76ae43" =
      VRes.invalid := by
  refine ⟨?_, rfl, ?_⟩
  · exact ( C9_theorem "secret_token" "user=1").1 rfl
  · exact ( C9_theorem "secret_token"
      "user=%7Bbad&hash=bc6ab3f46d8162822bad99ba59aff9e2f6319a9866482c933d2b11290c76ae43").2
      PyErr.jsonError rfl
